import Mathlib

/-!
Shallow embedding of the WhatsApp-gateway controller (waController.js):
the in-memory session registry (`sessions`), the reconnect guard map
(`reconnecting`), the SSE subscriber map (`sseClients`), the per-tenant
credential directory (`baileys/sessions/{apiKey}`), and the REST command
handlers (`sendText`, `broadcast`, `status`, `logout`) together with the
`connection.update` close handler of `createSocketForUser`.

External collaborators are abstracted: the audit-log collaborator
(`saveLog`, fire-and-forget, errors swallowed) has no observable effect on
the gateway state and is not modelled; the Baileys socket is modelled by
its identity and its websocket ready-state; the filesystem credential
store is modelled by the set of tenant keys whose session directory
exists; outbound channel invocations are recorded in an explicit call
list so that theorems can speak about which capability calls were made.
-/

/-- A Baileys socket as the controller observes it: an identity (used to
tell a reused socket from a freshly created one) and `sock.ws.readyState`,
`none` when the websocket object is absent. -/
structure Sock where
  sockId : Nat
  wsReadyState : Option Nat
deriving Repr, DecidableEq

/-- An SSE subscriber (an HTTP response object held in `sseClients`).
`broken` means a `res.write` on it throws. -/
structure Sink where
  sinkId : Nat
  broken : Bool
deriving Repr, DecidableEq

/-- Association-list lookup keyed by tenant API key, as `sessions[apiKey]`
and `sseClients.get(apiKey)` behave. -/
def alookup {β : Type} : List (String × β) → String → Option β
  | [], _ => none
  | (k, v) :: rest, key => if k = key then some v else alookup rest key

/-- Removal of a key from an association list, as `delete sessions[apiKey]`
and `sseClients.delete(apiKey)` behave. -/
def aerase {β : Type} : List (String × β) → String → List (String × β)
  | [], _ => []
  | (k, v) :: rest, key =>
      if k = key then aerase rest key else (k, v) :: aerase rest key

/-- Insertion into a set of keys (the `mkdirSync` in `ensureSessionDir`:
creates the directory only when it does not exist). -/
def insertStr (l : List String) (k : String) : List String :=
  if k ∈ l then l else k :: l

/-- Removal from a set of keys (the `fs.rmSync(dir, {recursive, force})`
on the tenant session directory; with `force` it does not fail when the
directory is absent). -/
def removeStr (l : List String) (k : String) : List String :=
  l.filter (fun x => x ≠ k)

/-- The whole mutable state of the controller process. -/
structure GWState where
  /-- `const sessions = {}` : apiKey → socket. -/
  sessions : List (String × Sock)
  /-- `const reconnecting = {}` : the apiKeys whose flag is `true`. -/
  reconnecting : List String
  /-- the apiKeys whose `baileys/sessions/{apiKey}` directory exists
  (the persisted credential blob of the tenant). -/
  credsDir : List String
  /-- pending `setTimeout` reconnection timers: (apiKey, delay ms). -/
  pendingTimers : List (String × Nat)
  /-- `const sseClients = new Map()` : apiKey → set of response sinks. -/
  sseClients : List (String × List Sink)
  /-- log of successful SSE writes: (sinkId, eventName). -/
  delivered : List (Nat × String)
  /-- fresh-identity counter for newly created sockets. -/
  nextSockId : Nat
deriving Repr, DecidableEq

/-- The one terminal Baileys disconnect reason the close handler compares
against: `DisconnectReason.loggedOut` (HTTP-style code 401). -/
def DisconnectReason.loggedOut : Nat := 401

/-- `sendSSE(apiKey, eventName, data)`: looks the subscriber set up, and
for each sink attempts the write; a throwing write is caught and ignored
(the sink stays in the set), a successful write is recorded in
`delivered`. When no set is registered for the key it returns at once. -/
def sendSSE (k event : String) (st : GWState) : GWState :=
  match alookup st.sseClients k with
  | none => st
  | some clients =>
      let writes := (clients.filter (fun s => !s.broken)).map
        (fun s => (s.sinkId, event))
      { st with delivered := st.delivered ++ writes }

/-- `createSocketForUser(user)`: `if (sessions[apiKey]) return
sessions[apiKey]` — otherwise ensure the session directory, build a fresh
socket and store it under the key. Returns the socket it ends with. -/
def createSocketForUser (k : String) (st : GWState) : Sock × GWState :=
  match alookup st.sessions k with
  | some s => (s, st)
  | none =>
      let sock : Sock := { sockId := st.nextSockId, wsReadyState := some 0 }
      (sock,
        { st with
            sessions := (k, sock) :: st.sessions,
            credsDir := insertStr st.credsDir k,
            nextSockId := st.nextSockId + 1 })

/-- The `connection === "close"` branch of the `connection.update`
handler. `statusCode` is `lastDisconnect?.error?.output?.statusCode`
(`none` when the optional chain is undefined). On the logged-out reason:
the socket is logged out and deleted from `sessions`, the session
directory is removed, and a `logged_out` SSE event is pushed. On every
other reason: when the reconnect flag is unset, it is set and one
3000 ms reconnection timer is scheduled; when set, nothing happens. -/
def handleClose (k : String) (statusCode : Option Nat) (st : GWState) :
    GWState :=
  if statusCode = some DisconnectReason.loggedOut then
    sendSSE k "logged_out"
      { st with
          sessions := aerase st.sessions k,
          credsDir := removeStr st.credsDir k }
  else
    if k ∈ st.reconnecting then st
    else
      { st with
          reconnecting := k :: st.reconnecting,
          pendingTimers := (k, 3000) :: st.pendingTimers }

/-- Removal of one fired timer for a key from the pending-timer list. -/
def removeOneTimer : List (String × Nat) → String → List (String × Nat)
  | [], _ => []
  | (k, d) :: rest, key =>
      if k = key then rest else (k, d) :: removeOneTimer rest key

/-- The body of the scheduled reconnection `setTimeout`: look the user up
again and, when found, run `createSocketForUser`; in the `finally` block
the reconnect flag is cleared. -/
def timerFires (k : String) (userFound : Bool) (st : GWState) : GWState :=
  let st1 := { st with pendingTimers := removeOneTimer st.pendingTimers k }
  let st2 := if userFound then (createSocketForUser k st1).2 else st1
  { st2 with reconnecting := removeStr st2.reconnecting k }

/-- `GET /wa/status`: `connected = !!sock && sock?.ws?.readyState === 1`. -/
def status (k : String) (st : GWState) : Bool :=
  match alookup st.sessions k with
  | none => false
  | some sock => decide (sock.wsReadyState = some 1)

/-- JavaScript truthiness of an optional request-body string field:
`undefined` and the empty string are falsy. -/
def truthy : Option String → Bool
  | none => false
  | some s => decide (s ≠ "")

/-- Outcome of a single-send command handler. -/
inductive DispatchResult where
  | sessionNotConnected : DispatchResult
  | invalidRequest : String → DispatchResult
  | ok : DispatchResult
deriving Repr, DecidableEq

/-- `POST /wa/send-text`: reject with "Session not connected" when
`sessions[apiKey]` is absent; reject with "to & text required" when
either body field is falsy; otherwise invoke `sock.sendMessage`. The
second component lists the channel invocations the handler made. -/
def sendText (k : String) (dest text : Option String) (st : GWState) :
    DispatchResult × List (String × String) :=
  match alookup st.sessions k with
  | none => (DispatchResult.sessionNotConnected, [])
  | some _ =>
      if truthy dest && truthy text then
        (DispatchResult.ok, [(dest.getD "", text.getD "")])
      else
        (DispatchResult.invalidRequest "to & text required", [])

/-- Outcome of the broadcast handler. -/
inductive BroadcastResult where
  | sessionNotConnected : BroadcastResult
  | invalidRequest : String → BroadcastResult
  | ok : List String → BroadcastResult
  | err : String → BroadcastResult
deriving Repr, DecidableEq

/-- The `for (const to of numbers)` loop of `broadcast`: one
`sock.sendMessage` per recipient in order; `fails` is the oracle saying
whether the send to a recipient throws. Returns the recipients actually
sent to (in order, the failing one included since its send was attempted)
and the first failing recipient when one exists — the loop stops there
because the exception escapes to the handler's catch. -/
def broadcastLoop (fails : String → Bool) :
    List String → List String × Option String
  | [] => ([], none)
  | dest :: rest =>
      if fails dest then ([dest], some dest)
      else
        let r := broadcastLoop fails rest
        (dest :: r.1, r.2)

/-- `POST /wa/broadcast`: session-presence check, then
`!Array.isArray(numbers) || !message` validation, then the sequential
send loop; a throwing send aborts into the catch, which answers with the
error and discards the collected per-recipient results. The second
component lists the channel invocations made. -/
def broadcast (k : String) (numbers : Option (List String))
    (message : Option String) (fails : String → Bool) (st : GWState) :
    BroadcastResult × List String :=
  match alookup st.sessions k with
  | none => (BroadcastResult.sessionNotConnected, [])
  | some _ =>
      match numbers with
      | none => (BroadcastResult.invalidRequest
          "numbers array & message required", [])
      | some ns =>
          if truthy message then
            match broadcastLoop fails ns with
            | (calls, none) => (BroadcastResult.ok calls, calls)
            | (calls, some bad) => (BroadcastResult.err bad, calls)
          else
            (BroadcastResult.invalidRequest
              "numbers array & message required", [])

/-- `POST /wa/logout`: when a socket exists it is logged out (errors
swallowed) and deleted from `sessions`; the session directory is removed
(`force`, errors swallowed); a `logged_out` SSE event is pushed; the
response is `{success: true}` unconditionally. -/
def logoutEndpoint (k : String) (st : GWState) : Bool × GWState :=
  (true,
    sendSSE k "logged_out"
      { st with
          sessions := aerase st.sessions k,
          credsDir := removeStr st.credsDir k })

/-- The `req.on("close")` cleanup of the SSE endpoint: the sink is
removed from the tenant's subscriber set, and the key is dropped when the
set becomes empty. -/
def sseClientClose (k : String) (snk : Sink) (st : GWState) : GWState :=
  match alookup st.sseClients k with
  | none => st
  | some clients =>
      let rest := clients.filter (fun s => s ≠ snk)
      if rest.isEmpty then { st with sseClients := aerase st.sseClients k }
      else
        { st with sseClients :=
            (st.sseClients.map (fun p => if p.1 = k then (k, rest) else p)) }

/-- The number of pending reconnection timers held for one tenant. -/
def countTimers (st : GWState) (k : String) : Nat :=
  (st.pendingTimers.filter (fun p => decide (p.1 = k))).length

/-- A socket whose websocket is open (`readyState === 1`). -/
def sockA : Sock := { sockId := 5, wsReadyState := some 1 }

/-- A socket whose websocket is not open (`readyState === 0`): the session
object exists but the connection is still linking or reconnecting. -/
def sockB : Sock := { sockId := 7, wsReadyState := some 0 }

/-- A subscriber whose write throws. -/
def sinkBroken : Sink := { sinkId := 0, broken := true }

/-- A subscriber whose write succeeds. -/
def sinkOk : Sink := { sinkId := 1, broken := false }

/-- A concrete controller state used to instantiate the theorems: tenant
"alice" has an open session and two SSE subscribers (one broken), tenant
"bob" has a session whose websocket is not open, tenant "carol" has no
session. -/
def stDemo : GWState :=
  { sessions := [("alice", sockA), ("bob", sockB)],
    reconnecting := [],
    credsDir := ["alice", "bob"],
    pendingTimers := [],
    sseClients := [("alice", [sinkBroken, sinkOk])],
    delivered := [],
    nextSockId := 8 }

/-- A send-failure oracle for instantiating the broadcast theorems: the
send to recipient "bad" throws, every other send succeeds. -/
def failsDemo : String → Bool := fun t => t == "bad"

/-! ## Basic association-list lemmas -/

theorem alookup_aerase_self {β : Type} (l : List (String × β)) (k : String) :
    alookup (aerase l k) k = none := by
  induction l with
  | nil => simp [aerase, alookup]
  | cons p rest ih =>
      obtain ⟨k1, v1⟩ := p
      by_cases h : k1 = k
      · simp [aerase, h, ih]
      · simp [aerase, alookup, h, ih]

theorem alookup_aerase_ne {β : Type} (l : List (String × β)) (k k2 : String)
    (h : k2 ≠ k) : alookup (aerase l k) k2 = alookup l k2 := by
  induction l with
  | nil => simp [aerase]
  | cons p rest ih =>
      obtain ⟨k1, v1⟩ := p
      by_cases h1 : k1 = k
      · simp [aerase, alookup, h1, ih, Ne.symm h]
      · simp [aerase, alookup, h1, ih]

theorem mem_removeStr_self (l : List String) (k : String) :
    k ∉ removeStr l k := by
  simp [removeStr]

theorem mem_removeStr_ne (l : List String) (k k2 : String) (h : k2 ≠ k) :
    k2 ∈ removeStr l k ↔ k2 ∈ l := by
  simp [removeStr, h]

theorem mem_insertStr (l : List String) (k : String) :
    k ∈ insertStr l k := by
  by_cases h : k ∈ l <;> simp [insertStr, h]

theorem mem_insertStr_of_mem (l : List String) (k k2 : String)
    (h : k2 ∈ l) : k2 ∈ insertStr l k := by
  by_cases hk : k ∈ l <;> simp [insertStr, hk, h]

/-! ## Effect lemmas about the operations -/

theorem sendSSE_sessions (k event : String) (st : GWState) :
    (sendSSE k event st).sessions = st.sessions := by
  unfold sendSSE
  cases alookup st.sseClients k <;> simp

theorem sendSSE_credsDir (k event : String) (st : GWState) :
    (sendSSE k event st).credsDir = st.credsDir := by
  unfold sendSSE
  cases alookup st.sseClients k <;> simp

theorem sendSSE_sseClients (k event : String) (st : GWState) :
    (sendSSE k event st).sseClients = st.sseClients := by
  unfold sendSSE
  cases alookup st.sseClients k <;> simp

theorem sendSSE_pendingTimers (k event : String) (st : GWState) :
    (sendSSE k event st).pendingTimers = st.pendingTimers := by
  unfold sendSSE
  cases alookup st.sseClients k <;> simp

theorem sendSSE_reconnecting (k event : String) (st : GWState) :
    (sendSSE k event st).reconnecting = st.reconnecting := by
  unfold sendSSE
  cases alookup st.sseClients k <;> simp

theorem sendSSE_delivers (k event : String) (st : GWState)
    (clients : List Sink) (hc : alookup st.sseClients k = some clients)
    (snk : Sink) (hs : snk ∈ clients) (hb : snk.broken = false) :
    (snk.sinkId, event) ∈ (sendSSE k event st).delivered := by
  simp only [sendSSE, hc]
  refine List.mem_append_right _ (List.mem_map.mpr ?_)
  exact ⟨snk, List.mem_filter.mpr ⟨hs, by simp [hb]⟩, rfl⟩

theorem createSocket_credsDir_mono (k k2 : String) (st : GWState)
    (h : k2 ∈ st.credsDir) : k2 ∈ ((createSocketForUser k st).2).credsDir := by
  unfold createSocketForUser
  split
  · simpa
  · simpa using mem_insertStr_of_mem st.credsDir k k2 h

theorem timerFires_credsDir_mono (k k2 : String) (uf : Bool) (st : GWState)
    (h : k2 ∈ st.credsDir) : k2 ∈ (timerFires k uf st).credsDir := by
  unfold timerFires
  cases uf with
  | false => simpa
  | true =>
      simpa using createSocket_credsDir_mono k k2
        { st with pendingTimers := removeOneTimer st.pendingTimers k } h

/-- Effects of the close handler on the logged-out reason: session and
credential directory are gone, no timer is added. -/
theorem handleClose_loggedOut (st : GWState) (k : String) (sc : Option Nat)
    (hsc : sc = some DisconnectReason.loggedOut) :
    alookup (handleClose k sc st).sessions k = none ∧
    k ∉ (handleClose k sc st).credsDir ∧
    (handleClose k sc st).pendingTimers = st.pendingTimers := by
  unfold handleClose
  rw [if_pos hsc]
  refine ⟨?_, ?_, ?_⟩
  · rw [sendSSE_sessions]
    exact alookup_aerase_self st.sessions k
  · rw [sendSSE_credsDir]
    exact mem_removeStr_self st.credsDir k
  · rw [sendSSE_pendingTimers]

/-- Effects of the close handler on every other reason: registry,
credential store and deliveries are untouched; a 3000 ms timer is pushed
when the guard is unset. -/
theorem handleClose_transient (st : GWState) (k : String) (sc : Option Nat)
    (hsc : sc ≠ some DisconnectReason.loggedOut) :
    (handleClose k sc st).sessions = st.sessions ∧
    (handleClose k sc st).credsDir = st.credsDir ∧
    (handleClose k sc st).delivered = st.delivered ∧
    (k ∉ st.reconnecting → (k, 3000) ∈ (handleClose k sc st).pendingTimers) := by
  unfold handleClose
  rw [if_neg hsc]
  by_cases hg : k ∈ st.reconnecting
  · simp [hg]
  · simp [hg]

/-- After the logout endpoint, session and credential directory are
absent for the tenant. -/
theorem logoutEndpoint_clears (st : GWState) (k : String) :
    k ∉ (logoutEndpoint k st).2.credsDir ∧
    alookup (logoutEndpoint k st).2.sessions k = none := by
  constructor
  · unfold logoutEndpoint
    rw [sendSSE_credsDir]
    exact mem_removeStr_self st.credsDir k
  · unfold logoutEndpoint
    rw [sendSSE_sessions]
    exact alookup_aerase_self st.sessions k

/-! ## Claim theorems -/

/-- Claim C1: for every tenant, at most one live session exists at a time:
a connect request (`createSocketForUser`) while a session for that tenant
is already in the registry is a no-op returning the existing session and
changing nothing; only when no session is present does it store one (for
that key alone, other tenants untouched). -/
theorem claim_C1_getOrCreate_idempotent (st : GWState) (k : String) :
    (∀ s, alookup st.sessions k = some s → createSocketForUser k st = (s, st)) ∧
    (alookup st.sessions k = none →
      alookup ((createSocketForUser k st).2).sessions k =
        some (createSocketForUser k st).1 ∧
      ∀ k2, k2 ≠ k →
        alookup ((createSocketForUser k st).2).sessions k2 =
          alookup st.sessions k2) := by
  refine ⟨fun s hs => by simp [createSocketForUser, hs], fun hn => ?_⟩
  refine ⟨by simp [createSocketForUser, hn, alookup], fun k2 hk2 => ?_⟩
  simp [createSocketForUser, hn, alookup, Ne.symm hk2]

/-- Witness for C1 at a concrete state: "alice" already has a session, so
connect returns it and the state is unchanged. -/
theorem claim_C1_witness :
    alookup stDemo.sessions "alice" = some sockA ∧
    createSocketForUser "alice" stDemo = (sockA, stDemo) :=
  ⟨by decide,
    (claim_C1_getOrCreate_idempotent stDemo "alice").1 sockA (by decide)⟩

/-- Claim C2: the close handler classifies exactly one disconnect reason
(`DisconnectReason.loggedOut`) as terminal — taking the logged-out
cleanup path (session gone from the registry, credential directory gone,
no reconnection timer added) — and every other reason, the absent reason
included, as transient — taking the reconnection path (registry,
credential directory and subscriber deliveries untouched, and a timer
scheduled when the guard allows). -/
theorem claim_C2_close_classification (st : GWState) (k : String)
    (sc : Option Nat) :
    (sc = some DisconnectReason.loggedOut →
      alookup (handleClose k sc st).sessions k = none ∧
      k ∉ (handleClose k sc st).credsDir ∧
      (handleClose k sc st).pendingTimers = st.pendingTimers) ∧
    (sc ≠ some DisconnectReason.loggedOut →
      (handleClose k sc st).sessions = st.sessions ∧
      (handleClose k sc st).credsDir = st.credsDir ∧
      (handleClose k sc st).delivered = st.delivered ∧
      (k ∉ st.reconnecting → (k, 3000) ∈ (handleClose k sc st).pendingTimers)) :=
  ⟨fun hsc => handleClose_loggedOut st k sc hsc,
    fun hsc => handleClose_transient st k sc hsc⟩

/-- Witness for C2: the logged-out reason (code 401) removes "alice" from
the registry; a transient reason (515) leaves the credential store as it
was. -/
theorem claim_C2_witness :
    alookup (handleClose "alice" (some 401) stDemo).sessions "alice" = none ∧
    (handleClose "alice" (some 515) stDemo).credsDir = stDemo.credsDir :=
  ⟨((claim_C2_close_classification stDemo "alice" (some 401)).1 (by decide)).1,
    ((claim_C2_close_classification stDemo "alice" (some 515)).2 (by decide)).2.1⟩

/-- Claim C3: the credential blob (the tenant session directory) is
deleted exactly by a terminal close or an explicit logout — after either,
blob and session are both absent — and a transiently classified close
never deletes it; it also survives the ensuing reconnection timer run. -/
theorem claim_C3_credential_lifecycle (st : GWState) (k : String)
    (sc : Option Nat) :
    (sc = some DisconnectReason.loggedOut →
      k ∉ (handleClose k sc st).credsDir ∧
      alookup (handleClose k sc st).sessions k = none) ∧
    (sc ≠ some DisconnectReason.loggedOut →
      (handleClose k sc st).credsDir = st.credsDir ∧
      ∀ uf, k ∈ st.credsDir →
        k ∈ (timerFires k uf (handleClose k sc st)).credsDir) ∧
    (k ∉ (logoutEndpoint k st).2.credsDir ∧
      alookup (logoutEndpoint k st).2.sessions k = none) := by
  refine ⟨fun hsc => ?_, fun hsc => ?_, logoutEndpoint_clears st k⟩
  · exact ⟨(handleClose_loggedOut st k sc hsc).2.1,
      (handleClose_loggedOut st k sc hsc).1⟩
  · refine ⟨(handleClose_transient st k sc hsc).2.1, fun uf hk => ?_⟩
    refine timerFires_credsDir_mono k k uf _ ?_
    rw [(handleClose_transient st k sc hsc).2.1]
    exact hk

/-- Witness for C3: a transient close (no reason code) for "bob" keeps
the credential store intact; logout for "bob" empties its entries. -/
theorem claim_C3_witness :
    (handleClose "bob" none stDemo).credsDir = stDemo.credsDir ∧
    "bob" ∉ (logoutEndpoint "bob" stDemo).2.credsDir :=
  ⟨((claim_C3_credential_lifecycle stDemo "bob" none).2.1 (by decide)).1,
    (claim_C3_credential_lifecycle stDemo "bob" none).2.2.1⟩

/-- Claim C4: a transiently classified close schedules exactly one
reconnection timer, with the fixed 3000 ms delay, when the reconnect
guard is unset — and is a no-op on the whole state when the guard is
set; hence a second transient close arriving before the timer fires
leaves exactly one pending timer for the tenant. -/
theorem claim_C4_single_reconnect_timer (st : GWState) (k : String)
    (sc sc2 : Option Nat) (h1 : sc ≠ some DisconnectReason.loggedOut)
    (h2 : sc2 ≠ some DisconnectReason.loggedOut) :
    (k ∉ st.reconnecting →
      handleClose k sc st =
        { st with
            reconnecting := k :: st.reconnecting,
            pendingTimers := (k, 3000) :: st.pendingTimers }) ∧
    (k ∈ st.reconnecting → handleClose k sc st = st) ∧
    (k ∉ st.reconnecting → countTimers st k = 0 →
      countTimers (handleClose k sc2 (handleClose k sc st)) k = 1) := by
  refine ⟨fun hg => ?_, fun hg => ?_, fun hg hc => ?_⟩
  · unfold handleClose
    rw [if_neg h1, if_neg hg]
  · unfold handleClose
    rw [if_neg h1, if_pos hg]
  · have e1 : handleClose k sc st =
        { st with
            reconnecting := k :: st.reconnecting,
            pendingTimers := (k, 3000) :: st.pendingTimers } := by
      unfold handleClose
      rw [if_neg h1, if_neg hg]
    have e2 : handleClose k sc2 (handleClose k sc st) = handleClose k sc st := by
      rw [e1]
      unfold handleClose
      rw [if_neg h2, if_pos (by simp)]
    rw [e2, e1]
    simp only [countTimers] at hc ⊢
    simp [List.filter, hc]

/-- Witness for C4: two transient closes for "carol" (one with no reason,
one with reason 428) leave exactly one pending timer. -/
theorem claim_C4_witness :
    countTimers (handleClose "carol" (some 428)
      (handleClose "carol" none stDemo)) "carol" = 1 :=
  (claim_C4_single_reconnect_timer stDemo "carol" none (some 428)
    (by decide) (by decide)).2.2 (by decide) (by decide)

/-- Counterexample to claim C5 as stated: tenant "bob" has a session
whose websocket ready-state is not 1 (the session is not in the
Connected state), yet `sendText` neither returns the
session-not-connected error nor skips the channel invocation — the
handlers check only that the session object exists. -/
theorem claim_C5_counterexample :
    alookup stDemo.sessions "bob" = some sockB ∧
    sockB.wsReadyState ≠ some 1 ∧
    (sendText "bob" (some "628@s.whatsapp.net") (some "hi") stDemo).1 ≠
      DispatchResult.sessionNotConnected ∧
    (sendText "bob" (some "628@s.whatsapp.net") (some "hi") stDemo).2 ≠
      [] := by
  decide

/-- Claim C5 amended: a dispatcher command whose tenant has no session in
the registry returns the session-not-connected error and performs no
channel invocation; mere presence of the session object — its connection
state is not inspected — lets the command proceed. -/
theorem claim_C5_absent_session_rejected (st : GWState) (k : String)
    (dest text : Option String) (numbers : Option (List String))
    (message : Option String) (fails : String → Bool)
    (h : alookup st.sessions k = none) :
    sendText k dest text st = (DispatchResult.sessionNotConnected, []) ∧
    broadcast k numbers message fails st =
      (BroadcastResult.sessionNotConnected, []) := by
  constructor
  · simp [sendText, h]
  · simp [broadcast, h]

/-- Witness for amended C5: "carol" has no session, so both commands are
rejected without a channel call. -/
theorem claim_C5_witness :
    sendText "carol" (some "x") (some "hi") stDemo =
      (DispatchResult.sessionNotConnected, []) ∧
    broadcast "carol" (some ["x"]) (some "hi") failsDemo stDemo =
      (BroadcastResult.sessionNotConnected, []) :=
  claim_C5_absent_session_rejected stDemo "carol" (some "x") (some "hi")
    (some ["x"]) (some "hi") failsDemo (by decide)

/-- Counterexample to claim C6 as stated: publishing "qr" to "alice",
whose subscriber set holds a broken sink and a working one, delivers to
the working sink only, but the broken sink is NOT removed from the
subscriber set — `sendSSE` swallows the write failure and leaves the
subscriber map untouched. -/
theorem claim_C6_counterexample :
    sinkBroken.broken = true ∧
    alookup stDemo.sseClients "alice" = some [sinkBroken, sinkOk] ∧
    (sendSSE "alice" "qr" stDemo).sseClients = stDemo.sseClients ∧
    alookup (sendSSE "alice" "qr" stDemo).sseClients "alice" =
      some [sinkBroken, sinkOk] ∧
    (sinkOk.sinkId, "qr") ∈ (sendSSE "alice" "qr" stDemo).delivered ∧
    (sinkBroken.sinkId, "qr") ∉ (sendSSE "alice" "qr" stDemo).delivered := by
  decide

/-- Claim C6 amended: a sink that fails on write is skipped — the failure
is swallowed and does not prevent delivery of the same publish to every
remaining working subscribed sink — but the publish does not remove it
from the subscriber set (removal happens only in the subscriber's own
close cleanup). -/
theorem claim_C6_failing_sink_skipped (st : GWState) (k event : String)
    (clients : List Sink) (hc : alookup st.sseClients k = some clients) :
    (sendSSE k event st).sseClients = st.sseClients ∧
    ∀ snk, snk ∈ clients → snk.broken = false →
      (snk.sinkId, event) ∈ (sendSSE k event st).delivered :=
  ⟨sendSSE_sseClients k event st,
    fun snk hs hb => sendSSE_delivers k event st clients hc snk hs hb⟩

/-- Witness for amended C6: the "qr" publish to "alice" leaves the
subscriber map unchanged and reaches the working sink. -/
theorem claim_C6_witness :
    (sendSSE "alice" "qr" stDemo).sseClients = stDemo.sseClients ∧
    (1, "qr") ∈ (sendSSE "alice" "qr" stDemo).delivered :=
  ⟨(claim_C6_failing_sink_skipped stDemo "alice" "qr" [sinkBroken, sinkOk]
      (by decide)).1,
    (claim_C6_failing_sink_skipped stDemo "alice" "qr" [sinkBroken, sinkOk]
      (by decide)).2 sinkOk (by decide) (by decide)⟩

theorem broadcastLoop_all_ok (fails : String → Bool) (l : List String)
    (h : ∀ t ∈ l, fails t = false) : broadcastLoop fails l = (l, none) := by
  induction l with
  | nil => rfl
  | cons a rest ih =>
      have ha : fails a = false := h a (by simp)
      have hrest : ∀ t ∈ rest, fails t = false := fun t ht => h t (by simp [ht])
      simp [broadcastLoop, ha, ih hrest]

theorem broadcastLoop_aborts (fails : String → Bool) (pre post : List String)
    (bad : String) (hpre : ∀ t ∈ pre, fails t = false)
    (hbad : fails bad = true) :
    broadcastLoop fails (pre ++ bad :: post) = (pre ++ [bad], some bad) := by
  induction pre with
  | nil => simp [broadcastLoop, hbad]
  | cons a rest ih =>
      have ha : fails a = false := hpre a (by simp)
      have hrest : ∀ t ∈ rest, fails t = false :=
        fun t ht => hpre t (by simp [ht])
      simp [broadcastLoop, ha, ih hrest]

/-- Claim C7: with a session present, broadcast sends to the recipients
strictly in list order; when every send succeeds the handler answers with
one result per recipient in order, and the first failing recipient aborts
the batch — the failing send is the last channel call made, the later
recipients get none, and the response carries the error instead of the
collected per-recipient results. -/
theorem claim_C7_broadcast_sequential_abort (st : GWState) (k : String)
    (s : Sock) (hs : alookup st.sessions k = some s) (message : String)
    (hm : message ≠ "") (fails : String → Bool) :
    (∀ l, (∀ t ∈ l, fails t = false) →
      broadcast k (some l) (some message) fails st =
        (BroadcastResult.ok l, l)) ∧
    (∀ pre bad post, (∀ t ∈ pre, fails t = false) → fails bad = true →
      broadcast k (some (pre ++ bad :: post)) (some message) fails st =
        (BroadcastResult.err bad, pre ++ [bad])) := by
  constructor
  · intro l hl
    simp [broadcast, hs, truthy, hm, broadcastLoop_all_ok fails l hl]
  · intro pre bad post hpre hbad
    simp [broadcast, hs, truthy, hm,
      broadcastLoop_aborts fails pre post bad hpre hbad]

/-- Witness for C7: broadcasting to recipients a, bad, c where the send
to bad throws: a and bad are the only channel calls, the response is the
error, no per-recipient results. -/
theorem claim_C7_witness :
    broadcast "alice" (some ["a", "bad", "c"]) (some "hello") failsDemo
      stDemo = (BroadcastResult.err "bad", ["a", "bad"]) :=
  (claim_C7_broadcast_sequential_abort stDemo "alice" sockA (by decide)
    "hello" (by decide) failsDemo).2 ["a"] "bad" ["c"] (by decide) (by decide)

/-- Claim C8: with a session present, a sendText request whose
destination field is missing or empty is rejected with the invalid
request error naming the required fields, and no channel call is made. -/
theorem claim_C8_sendText_validates_to (st : GWState) (k : String)
    (s : Sock) (hs : alookup st.sessions k = some s)
    (dest text : Option String) (hd : truthy dest = false) :
    sendText k dest text st =
      (DispatchResult.invalidRequest "to & text required", []) := by
  simp [sendText, hs, hd]

/-- Witness for C8: an empty destination for "alice" is rejected without
a channel call. -/
theorem claim_C8_witness :
    sendText "alice" (some "") (some "hi") stDemo =
      (DispatchResult.invalidRequest "to & text required", []) :=
  claim_C8_sendText_validates_to stDemo "alice" sockA (by decide)
    (some "") (some "hi") (by decide)

/-- Claim C9: status reports connected exactly when a session object
exists and its websocket ready-state is 1; a session that exists with any
other ready-state reports not connected, yet a well-formed sendText for
the same tenant still proceeds to the channel call, since dispatch only
requires the session object to exist. -/
theorem claim_C9_status_iff_ws_open (st : GWState) (k : String) :
    (status k st = true ↔
      ∃ s, alookup st.sessions k = some s ∧ s.wsReadyState = some 1) ∧
    (∀ s dest text, alookup st.sessions k = some s →
      s.wsReadyState ≠ some 1 →
      status k st = false ∧
      (truthy dest = true → truthy text = true →
        (sendText k dest text st).1 = DispatchResult.ok)) := by
  constructor
  · cases h : alookup st.sessions k with
    | none => simp [status, h]
    | some s => simp [status, h]
  · intro s dest text hs hr
    refine ⟨by simp [status, hs, hr], fun hd ht => ?_⟩
    simp [sendText, hs, hd, ht]

/-- Witness for C9: "bob" has a session with ready-state 0: status is
false while sendText still dispatches. -/
theorem claim_C9_witness :
    status "bob" stDemo = false ∧
    (sendText "bob" (some "x") (some "hi") stDemo).1 = DispatchResult.ok :=
  ⟨((claim_C9_status_iff_ws_open stDemo "bob").2 sockB (some "x") (some "hi")
      (by decide) (by decide)).1,
    ((claim_C9_status_iff_ws_open stDemo "bob").2 sockB (some "x") (some "hi")
      (by decide) (by decide)).2 (by decide) (by decide)⟩

theorem aerase_idem {β : Type} (l : List (String × β)) (k : String) :
    aerase (aerase l k) k = aerase l k := by
  induction l with
  | nil => rfl
  | cons p rest ih =>
      obtain ⟨k1, v1⟩ := p
      by_cases h : k1 = k
      · simp [aerase, h, ih]
      · simp [aerase, h, ih]

theorem removeStr_idem (l : List String) (k : String) :
    removeStr (removeStr l k) k = removeStr l k := by
  induction l with
  | nil => rfl
  | cons a rest ih =>
      by_cases h : a = k
      · simp [removeStr, h, ih]
      · simp [removeStr, h, ih]

theorem logoutEndpoint_sessions (k : String) (st : GWState) :
    (logoutEndpoint k st).2.sessions = aerase st.sessions k := by
  unfold logoutEndpoint
  rw [sendSSE_sessions]

theorem logoutEndpoint_credsDir (k : String) (st : GWState) :
    (logoutEndpoint k st).2.credsDir = removeStr st.credsDir k := by
  unfold logoutEndpoint
  rw [sendSSE_credsDir]

theorem logoutEndpoint_sseClients (k : String) (st : GWState) :
    (logoutEndpoint k st).2.sseClients = st.sseClients := by
  unfold logoutEndpoint
  rw [sendSSE_sseClients]

theorem logoutEndpoint_reconnecting (k : String) (st : GWState) :
    (logoutEndpoint k st).2.reconnecting = st.reconnecting := by
  unfold logoutEndpoint
  rw [sendSSE_reconnecting]

theorem logoutEndpoint_pendingTimers (k : String) (st : GWState) :
    (logoutEndpoint k st).2.pendingTimers = st.pendingTimers := by
  unfold logoutEndpoint
  rw [sendSSE_pendingTimers]

/-- Claim C10: logout is total and idempotent: it answers success even
with no session present; afterwards the session is out of the registry,
the credential directory is gone, and the logged-out event reached every
working subscriber; a second logout answers success again and changes
none of the registry, credential store, subscriber, guard or timer
state. -/
theorem claim_C10_logout_idempotent (st : GWState) (k : String) :
    (logoutEndpoint k st).1 = true ∧
    alookup (logoutEndpoint k st).2.sessions k = none ∧
    k ∉ (logoutEndpoint k st).2.credsDir ∧
    (∀ clients, alookup st.sseClients k = some clients →
      ∀ snk, snk ∈ clients → snk.broken = false →
        (snk.sinkId, "logged_out") ∈ (logoutEndpoint k st).2.delivered) ∧
    (logoutEndpoint k (logoutEndpoint k st).2).1 = true ∧
    (logoutEndpoint k (logoutEndpoint k st).2).2.sessions =
      (logoutEndpoint k st).2.sessions ∧
    (logoutEndpoint k (logoutEndpoint k st).2).2.credsDir =
      (logoutEndpoint k st).2.credsDir ∧
    (logoutEndpoint k (logoutEndpoint k st).2).2.sseClients =
      (logoutEndpoint k st).2.sseClients ∧
    (logoutEndpoint k (logoutEndpoint k st).2).2.reconnecting =
      (logoutEndpoint k st).2.reconnecting ∧
    (logoutEndpoint k (logoutEndpoint k st).2).2.pendingTimers =
      (logoutEndpoint k st).2.pendingTimers := by
  refine ⟨rfl, (logoutEndpoint_clears st k).2, (logoutEndpoint_clears st k).1,
    fun clients hc snk hsm hb => ?_, rfl, ?_, ?_, ?_, ?_, ?_⟩
  · exact sendSSE_delivers k "logged_out"
      { st with
          sessions := aerase st.sessions k,
          credsDir := removeStr st.credsDir k } clients hc snk hsm hb
  · rw [logoutEndpoint_sessions, logoutEndpoint_sessions, aerase_idem]
  · rw [logoutEndpoint_credsDir, logoutEndpoint_credsDir, removeStr_idem]
  · rw [logoutEndpoint_sseClients, logoutEndpoint_sseClients]
  · rw [logoutEndpoint_reconnecting, logoutEndpoint_reconnecting]
  · rw [logoutEndpoint_pendingTimers, logoutEndpoint_pendingTimers]

/-- Witness for C10: logging "alice" out removes the session and the
working subscriber got the logged-out event. -/
theorem claim_C10_witness :
    alookup (logoutEndpoint "alice" stDemo).2.sessions "alice" = none ∧
    (1, "logged_out") ∈ (logoutEndpoint "alice" stDemo).2.delivered :=
  ⟨(claim_C10_logout_idempotent stDemo "alice").2.1,
    (claim_C10_logout_idempotent stDemo "alice").2.2.2.1
      [sinkBroken, sinkOk] (by decide) sinkOk (by decide) (by decide)⟩
